import Mathlib

/-!
Verification of the armory issue-definition validator (src/armory.py).

The validator walks a directory of TOML issue-definition files, parses each
one, and emits validation issues: `ARMORY-003` on decode failure, `ARMORY-001`
for title problems, `ARMORY-002` for category problems, skipping files whose
`archived` field is truthy.  We embed the per-file checking logic and the
result envelope; the TOML parser and the filesystem walk are external
collaborators, so a file is represented by its path together with the outcome
of parsing it (either a decode-error message or the parsed fields).

String operations from the Python source (`startswith`, slicing, `endswith`,
truthiness of a string) are embedded at the character-list level, matching
the per-character semantics of Python strings.
-/

namespace Armory

/-- The fixed `CATEGORIES` tuple from the source. -/
def CATEGORIES : List String :=
  ["bug-risk", "doc", "style", "antipattern", "coverage", "security",
   "performance", "typecheck"]

/-- `WORKSPACE_PATH = os.environ.get("CODE_PATH", "/code")`, with the process
environment passed explicitly as a partial map from variable names to
values. -/
def WORKSPACE_PATH (env : String → Option String) : String :=
  (env "CODE_PATH").getD "/code"

/-- Python `s.startswith(p)`: the characters of `p` are an initial segment
of the characters of `s`. -/
def strStarts (s p : String) : Bool := decide (p.data <+: s.data)

/-- Python `s[n:]`: drop the first `n` characters. -/
def strDropChars (s : String) (n : Nat) : String := ⟨s.data.drop n⟩

/-- Python `s.endswith(p)`: the characters of `p` are a final segment of
the characters of `s`. -/
def strEnds (s p : String) : Bool := decide (p.data <:+ s.data)

/-- Python truthiness of an optional string field obtained by `data.get(k)`:
`None` and the empty string are falsy, everything else is truthy. -/
def truthy : Option String → Bool
  | none => false
  | some s => !s.data.isEmpty

/-- A line/column coordinate. -/
structure Coord where
  line : Nat
  column : Nat
deriving DecidableEq, Repr

/-- The `position` mapping of an issue: `begin` and `end` coordinates. -/
structure Position where
  begin_ : Coord
  end_ : Coord
deriving DecidableEq, Repr

/-- The `location` mapping of an issue: normalized path and position. -/
structure Location where
  path : String
  position : Position
deriving DecidableEq, Repr

/-- One validation issue record, as built by `get_issue_struct`. -/
structure ValidationIssue where
  issue_code : String
  issue_text : String
  location : Location
deriving DecidableEq, Repr

/-- The result envelope built by `prepare_result`.  `metrics` and `errors`
are always empty lists and `extra_data` the empty string in this program;
we keep them as fields to mirror the shape. -/
structure ValidationResult where
  issues : List ValidationIssue
  metrics : List String
  is_passed : Bool
  errors : List String
  extra_data : String
deriving DecidableEq, Repr

/-- `prepare_result(issues)`: wrap the issue list;
`is_passed = True if issues else False` (truthy list = non-empty). -/
def prepare_result (issues : List ValidationIssue) : ValidationResult :=
  { issues := issues
    metrics := []
    is_passed := if issues.isEmpty then false else true
    errors := []
    extra_data := "" }

/-- `get_vcs_filepath(filepath)`: remove the leading `"/code/"` (six
characters) when present, else return the path unchanged. -/
def get_vcs_filepath (filepath : String) : String :=
  if strStarts filepath "/code/" then strDropChars filepath 6 else filepath

/-- `get_issue_struct(issue_code, issue_txt, filepath, line, col)`: build the
issue record, normalizing the path and duplicating the coordinate into the
`begin` and `end` positions. -/
def get_issue_struct (issue_code issue_txt filepath : String)
    (line col : Nat) : ValidationIssue :=
  { issue_code := issue_code
    issue_text := issue_txt
    location :=
      { path := get_vcs_filepath filepath
        position :=
          { begin_ := { line := line, column := col }
            end_ := { line := line, column := col } } } }

/-- The fields of one successfully parsed issue-definition file that the
validator reads: `data.get("title")`, `data.get("category")`, and the
truthiness of `data.get("archived")`. -/
structure ParsedData where
  title : Option String
  category : Option String
  archived : Bool
deriving DecidableEq, Repr

/-- The outcome of `toml.loads` on one file: a decode-error message, or the
parsed fields. -/
def ParseOutcome := Except String ParsedData

/-- The title check of `main` (code `ARMORY-001`): missing or empty title
gives the "Missing title" issue; otherwise a title ending in a period gives
the "period" issue. -/
def titleIssues (filepath : String) (title : Option String) :
    List ValidationIssue :=
  if !truthy title then
    [get_issue_struct "ARMORY-001" "Missing title for issue." filepath 1 0]
  else if strEnds ((title).getD "") "." then
    [get_issue_struct "ARMORY-001" "Title should not end with a period."
      filepath 1 0]
  else []

/-- The category check of `main` (code `ARMORY-002`): missing or empty
category gives the "Missing category" issue; a category outside `CATEGORIES`
gives the "Invalid category" issue. -/
def categoryIssues (filepath : String) (category : Option String) :
    List ValidationIssue :=
  if !truthy category then
    [get_issue_struct "ARMORY-002" "Missing category field." filepath 1 0]
  else if (category.getD "") ∈ CATEGORIES then []
  else [get_issue_struct "ARMORY-002" "Invalid category field" filepath 1 0]

/-- The per-file body of the loop in `main`: a decode failure yields one
`ARMORY-003` issue and skips the rest; a truthy `archived` skips all checks;
otherwise the title check runs, then the category check. -/
def checkFile (filepath : String) (parsed : Except String ParsedData) :
    List ValidationIssue :=
  match parsed with
  | Except.error exc =>
      [get_issue_struct "ARMORY-003" ("Error decoding toml: " ++ exc)
        filepath 1 0]
  | Except.ok data =>
      if data.archived then []
      else titleIssues filepath data.title ++
        categoryIssues filepath data.category

/-- The accumulation loop of `main` over the walked files (each file given by
its path and its parse outcome): issues are appended in file order, per-file
in check order. -/
def collectIssues : List (String × Except String ParsedData) →
    List ValidationIssue
  | [] => []
  | f :: rest => checkFile f.1 f.2 ++ collectIssues rest

/-- `main` up to (but not including) publishing: validate all walked files
and wrap the accumulated issues with `prepare_result`. -/
def runValidator (files : List (String × Except String ParsedData)) :
    ValidationResult :=
  prepare_result (collectIssues files)

/-! ## Helper lemmas -/

/-- The accumulation loop distributes over list concatenation: files are
processed independently, in order. -/
theorem collectIssues_append (a b : List (String × Except String ParsedData)) :
    collectIssues (a ++ b) = collectIssues a ++ collectIssues b := by
  induction a with
  | nil => rfl
  | cons f rest ih => simp [collectIssues, ih]

/-- The title check returns one of three concrete lists: nothing, the
missing-title issue, or the trailing-period issue. -/
theorem titleIssues_cases (filepath : String) (t : Option String) :
    titleIssues filepath t = [] ∨
    titleIssues filepath t =
      [get_issue_struct "ARMORY-001" "Missing title for issue."
        filepath 1 0] ∨
    titleIssues filepath t =
      [get_issue_struct "ARMORY-001" "Title should not end with a period."
        filepath 1 0] := by
  unfold titleIssues
  split
  · exact Or.inr (Or.inl rfl)
  · split
    · exact Or.inr (Or.inr rfl)
    · exact Or.inl rfl

/-- The category check returns one of three concrete lists: nothing, the
missing-category issue, or the invalid-category issue. -/
theorem categoryIssues_cases (filepath : String) (c : Option String) :
    categoryIssues filepath c = [] ∨
    categoryIssues filepath c =
      [get_issue_struct "ARMORY-002" "Missing category field."
        filepath 1 0] ∨
    categoryIssues filepath c =
      [get_issue_struct "ARMORY-002" "Invalid category field"
        filepath 1 0] := by
  unfold categoryIssues
  split
  · exact Or.inr (Or.inl rfl)
  · split
    · exact Or.inl rfl
    · exact Or.inr (Or.inr rfl)

/-- The title check never emits an `ARMORY-002` issue. -/
theorem titleIssues_filter_002 (filepath : String) (t : Option String) :
    (titleIssues filepath t).filter
      (fun i => i.issue_code == "ARMORY-002") = [] := by
  rcases titleIssues_cases filepath t with h | h | h <;>
    simp [h, get_issue_struct]

/-- The category check never emits an `ARMORY-001` issue. -/
theorem categoryIssues_filter_001 (filepath : String) (c : Option String) :
    (categoryIssues filepath c).filter
      (fun i => i.issue_code == "ARMORY-001") = [] := by
  rcases categoryIssues_cases filepath c with h | h | h <;>
    simp [h, get_issue_struct]

/-- Every issue emitted by the title check carries position line 1,
column 0 at both ends. -/
theorem titleIssues_position (filepath : String) (t : Option String)
    (i : ValidationIssue) (hi : i ∈ titleIssues filepath t) :
    i.location.position = ⟨⟨1, 0⟩, ⟨1, 0⟩⟩ := by
  rcases titleIssues_cases filepath t with h | h | h <;> rw [h] at hi <;>
    simp at hi <;> subst hi <;> rfl

/-- Every issue emitted by the category check carries position line 1,
column 0 at both ends. -/
theorem categoryIssues_position (filepath : String) (c : Option String)
    (i : ValidationIssue) (hi : i ∈ categoryIssues filepath c) :
    i.location.position = ⟨⟨1, 0⟩, ⟨1, 0⟩⟩ := by
  rcases categoryIssues_cases filepath c with h | h | h <;> rw [h] at hi <;>
    simp at hi <;> subst hi <;> rfl

/-- Every issue emitted for a single file carries position line 1,
column 0 at both ends. -/
theorem checkFile_position (filepath : String)
    (p : Except String ParsedData) (i : ValidationIssue)
    (hi : i ∈ checkFile filepath p) :
    i.location.position = ⟨⟨1, 0⟩, ⟨1, 0⟩⟩ := by
  cases p with
  | error e =>
      simp [checkFile] at hi
      subst hi
      rfl
  | ok d =>
      simp only [checkFile] at hi
      split at hi
      · simp at hi
      · rw [List.mem_append] at hi
        rcases hi with h1 | h2
        · exact titleIssues_position filepath d.title i h1
        · exact categoryIssues_position filepath d.category i h2

/-! ## Claim theorems -/

/-- Claim C1: the `is_passed` field of the produced `ValidationResult` is
true if and only if the accumulated issue list is non-empty. -/
theorem is_passed_iff_issues_nonempty (issues : List ValidationIssue) :
    (prepare_result issues).is_passed = true ↔ issues ≠ [] := by
  cases issues <;> simp [prepare_result]

/-- Claim C2: a file whose contents fail to parse produces exactly one
`ARMORY-003` issue, whose text extends the underlying parser error message,
at line 1 column 0 for both ends, with no title or category issue; and the
run over any surrounding files continues unaffected, accumulating the
issues of the other files in order. -/
theorem decode_error_one_issue (filepath exc : String)
    (pre post : List (String × Except String ParsedData)) :
    checkFile filepath (Except.error exc) =
      [⟨"ARMORY-003", "Error decoding toml: " ++ exc,
        ⟨get_vcs_filepath filepath, ⟨⟨1, 0⟩, ⟨1, 0⟩⟩⟩⟩] ∧
    (∃ t, "Error decoding toml: " ++ exc = t ++ exc) ∧
    collectIssues (pre ++ (filepath, Except.error exc) :: post) =
      collectIssues pre ++
        [⟨"ARMORY-003", "Error decoding toml: " ++ exc,
          ⟨get_vcs_filepath filepath, ⟨⟨1, 0⟩, ⟨1, 0⟩⟩⟩⟩] ++
        collectIssues post := by
  refine ⟨rfl, ⟨"Error decoding toml: ", rfl⟩, ?_⟩
  rw [collectIssues_append]
  simp [collectIssues, checkFile, get_issue_struct]

/-- Claim C5: a successfully parsed file whose `archived` field is truthy
produces no issues at all, whatever the other fields hold. -/
theorem archived_file_no_issues (filepath : String) (data : ParsedData)
    (h : data.archived = true) :
    checkFile filepath (Except.ok data) = [] := by
  simp [checkFile, h]

/-- Witness for C5 at a concrete archived file with a missing title and an
invalid category. -/
theorem archived_file_no_issues_witness :
    checkFile "issues/Z.toml"
      (Except.ok ⟨none, some "invalid-cat", true⟩) = [] :=
  archived_file_no_issues "issues/Z.toml" ⟨none, some "invalid-cat", true⟩ rfl

/-- Claim C8: the end-to-end example: a file `issues/FOO-001.toml` whose
parsed fields are title `Do the thing.`, category `invalid-cat` and no
`archived` flag yields exactly the trailing-period `ARMORY-001` issue
followed by the invalid-category `ARMORY-002` issue, both at line 1,
column 0, with path `issues/FOO-001.toml`, and the envelope flags
`is_passed`. -/
theorem end_to_end_example :
    runValidator [("issues/FOO-001.toml",
        Except.ok ⟨some "Do the thing.", some "invalid-cat", false⟩)] =
      ⟨[⟨"ARMORY-001", "Title should not end with a period.",
          ⟨"issues/FOO-001.toml", ⟨⟨1, 0⟩, ⟨1, 0⟩⟩⟩⟩,
        ⟨"ARMORY-002", "Invalid category field",
          ⟨"issues/FOO-001.toml", ⟨⟨1, 0⟩, ⟨1, 0⟩⟩⟩⟩],
       [], true, [], ""⟩ := by
  decide

/-- Claim C9: every issue produced in any run carries position line 1,
column 0 for both its begin and its end coordinates. -/
theorem every_issue_position_one_zero
    (files : List (String × Except String ParsedData))
    (i : ValidationIssue) (hi : i ∈ (runValidator files).issues) :
    i.location.position = ⟨⟨1, 0⟩, ⟨1, 0⟩⟩ := by
  induction files with
  | nil => simp [runValidator, prepare_result, collectIssues] at hi
  | cons f rest ih =>
      have hi2 : i ∈ checkFile f.1 f.2 ++ collectIssues rest := hi
      rw [List.mem_append] at hi2
      rcases hi2 with h1 | h2
      · exact checkFile_position f.1 f.2 i h1
      · exact ih h2

/-- Witness for C9 at a concrete run over one unparsable file. -/
theorem every_issue_position_one_zero_witness :
    (⟨"ARMORY-003", "Error decoding toml: bad", ⟨"f", ⟨⟨1, 0⟩, ⟨1, 0⟩⟩⟩⟩ :
        ValidationIssue).location.position = ⟨⟨1, 0⟩, ⟨1, 0⟩⟩ :=
  every_issue_position_one_zero [("f", Except.error "bad")]
    ⟨"ARMORY-003", "Error decoding toml: bad", ⟨"f", ⟨⟨1, 0⟩, ⟨1, 0⟩⟩⟩⟩
    (by decide)

/-- Claim C6: the path stored in an issue is the input path passed through
`get_vcs_filepath`; that function strips the leading `/code/` prefix when
the path begins with it (returning exactly the remainder), and returns the
path unchanged when it does not. -/
theorem issue_path_normalization (rest fp code txt : String)
    (line col : Nat) :
    (get_issue_struct code txt fp line col).location.path =
      get_vcs_filepath fp ∧
    get_vcs_filepath ("/code/" ++ rest) = rest ∧
    (strStarts fp "/code/" = false → get_vcs_filepath fp = fp) := by
  refine ⟨rfl, ?_, fun hn => by simp [get_vcs_filepath, hn]⟩
  have hpre : strStarts ("/code/" ++ rest) "/code/" = true := by
    rw [strStarts, decide_eq_true_eq, String.data_append]
    exact ⟨rest.data, rfl⟩
  rw [get_vcs_filepath, if_pos hpre]
  apply String.ext
  show (("/code/" ++ rest).data).drop 6 = rest.data
  rw [String.data_append]
  have h6 : ("/code/" : String).data.length = 6 := rfl
  rw [← h6, List.drop_left]

/-- Witness for C6 at concrete paths with and without the prefix. -/
theorem issue_path_normalization_witness :
    (get_issue_struct "ARMORY-001" "t" "/code/x.toml" 1 0).location.path =
      get_vcs_filepath "/code/x.toml" ∧
    get_vcs_filepath ("/code/" ++ "x.toml") = "x.toml" ∧
    get_vcs_filepath "docs/x.toml" = "docs/x.toml" :=
  ⟨(issue_path_normalization "x.toml" "/code/x.toml" "ARMORY-001" "t" 1 0).1,
   (issue_path_normalization "x.toml" "docs/x.toml" "ARMORY-001" "t" 1 0).2.1,
   (issue_path_normalization "x.toml" "docs/x.toml" "ARMORY-001" "t" 1 0).2.2
     (by decide)⟩

/-- Claim C7: `get_vcs_filepath` compares against the literal `/code/`
only: it drops the first six characters exactly when the path starts with
`/code/`, and it never consults the environment-configured workspace root,
so a path under a workspace root other than `/code` keeps its full
prefix. -/
theorem vcs_path_literal_code_only (fp : String)
    (env : String → Option String) :
    (strStarts fp "/code/" = true →
      get_vcs_filepath fp = strDropChars fp 6) ∧
    (strStarts fp "/code/" = false → get_vcs_filepath fp = fp) ∧
    (env "CODE_PATH" = some "/workspace" →
      WORKSPACE_PATH env = "/workspace") ∧
    get_vcs_filepath "/workspace/issues/A.toml" =
      "/workspace/issues/A.toml" := by
  refine ⟨fun hy => by simp [get_vcs_filepath, hy],
          fun hn => by simp [get_vcs_filepath, hn],
          fun he => by simp [WORKSPACE_PATH, he],
          by decide⟩

/-- Witness for C7 at concrete paths and a concrete environment. -/
theorem vcs_path_literal_code_only_witness :
    get_vcs_filepath "/code/a.toml" = strDropChars "/code/a.toml" 6 ∧
    get_vcs_filepath "b.toml" = "b.toml" ∧
    WORKSPACE_PATH (fun _ => some "/workspace") = "/workspace" :=
  ⟨(vcs_path_literal_code_only "/code/a.toml"
      (fun _ => some "/workspace")).1 (by decide),
   (vcs_path_literal_code_only "b.toml"
      (fun _ => some "/workspace")).2.1 (by decide),
   (vcs_path_literal_code_only "b.toml"
      (fun _ => some "/workspace")).2.2.1 rfl⟩

/-- Claim C3 counterexample: a successfully parsed file with a missing
title but a truthy `archived` flag yields no issue at all, so the title
rule does not apply to every successfully parsed file. -/
theorem title_check_archived_counterexample :
    (⟨none, some "doc", true⟩ : ParsedData).title = none ∧
    checkFile "issues/X.toml" (Except.ok ⟨none, some "doc", true⟩) = [] :=
  ⟨rfl, by decide⟩

/-- Claim C3 (amended to non-archived files): for a successfully parsed,
non-archived file, a missing or empty title yields exactly the one
missing-title `ARMORY-001` issue; a title ending in a period yields exactly
the one trailing-period `ARMORY-001` issue; and the two conditions are
mutually exclusive. -/
theorem title_check_nonarchived (filepath : String) (data : ParsedData)
    (h : data.archived = false) :
    ((data.title = none ∨ data.title = some "") →
      (checkFile filepath (Except.ok data)).filter
          (fun i => i.issue_code == "ARMORY-001") =
        [get_issue_struct "ARMORY-001" "Missing title for issue."
          filepath 1 0]) ∧
    (∀ t, data.title = some t → strEnds t "." = true →
      (checkFile filepath (Except.ok data)).filter
          (fun i => i.issue_code == "ARMORY-001") =
        [get_issue_struct "ARMORY-001" "Title should not end with a period."
          filepath 1 0]) ∧
    ¬((data.title = none ∨ data.title = some "") ∧
      ∃ t, data.title = some t ∧ strEnds t "." = true) := by
  have hsplit : checkFile filepath (Except.ok data) =
      titleIssues filepath data.title ++
        categoryIssues filepath data.category := by
    simp [checkFile, h]
  refine ⟨?_, ?_, ?_⟩
  · intro h1
    rw [hsplit, List.filter_append, categoryIssues_filter_001]
    rcases h1 with h1 | h1 <;>
      simp [h1, titleIssues, truthy, get_issue_struct]
  · intro t ht hend
    rw [hsplit, List.filter_append, categoryIssues_filter_001]
    have hne : t.data.isEmpty = false := by
      rw [strEnds, decide_eq_true_eq] at hend
      rcases hend with ⟨pre, hpre⟩
      cases t0 : t.data with
      | nil => rw [t0] at hpre; simp at hpre
      | cons a l => simp
    simp [ht, titleIssues, truthy, hne, hend, get_issue_struct]
  · rintro ⟨h1, t, ht, hend⟩
    rcases h1 with h1 | h1
    · rw [h1] at ht
      exact Option.noConfusion ht
    · rw [h1] at ht
      injection ht with ht2
      rw [← ht2] at hend
      exact absurd hend (by decide)

/-- Witness for the amended C3 at a concrete non-archived file with a
missing title. -/
theorem title_check_nonarchived_witness :
    (checkFile "issues/X.toml"
        (Except.ok ⟨none, some "doc", false⟩)).filter
        (fun i => i.issue_code == "ARMORY-001") =
      [get_issue_struct "ARMORY-001" "Missing title for issue."
        "issues/X.toml" 1 0] :=
  (title_check_nonarchived "issues/X.toml" ⟨none, some "doc", false⟩ rfl).1
    (Or.inl rfl)

/-- Claim C4 counterexample: a successfully parsed file with a missing
category but a truthy `archived` flag yields no issue at all, so the
category rule does not apply to every successfully parsed file. -/
theorem category_check_archived_counterexample :
    (⟨some "T", none, true⟩ : ParsedData).category = none ∧
    checkFile "issues/Y.toml" (Except.ok ⟨some "T", none, true⟩) = [] :=
  ⟨rfl, by decide⟩

/-- A present, valid category produces no category issue. -/
theorem categoryIssues_valid (filepath : String) (c : String)
    (h1 : truthy (some c) = true) (h2 : c ∈ CATEGORIES) :
    categoryIssues filepath (some c) = [] := by
  simp [categoryIssues, h1, h2]

/-- Claim C4 (amended to non-archived files): for a successfully parsed,
non-archived file, a missing or empty category yields exactly the one
missing-category `ARMORY-002` issue; a present non-empty category outside
`CATEGORIES` yields exactly the one invalid-category `ARMORY-002` issue;
and a category in `CATEGORIES` yields no `ARMORY-002` issue. -/
theorem category_check_nonarchived (filepath : String) (data : ParsedData)
    (h : data.archived = false) :
    ((data.category = none ∨ data.category = some "") →
      (checkFile filepath (Except.ok data)).filter
          (fun i => i.issue_code == "ARMORY-002") =
        [get_issue_struct "ARMORY-002" "Missing category field."
          filepath 1 0]) ∧
    (∀ c, data.category = some c → c ≠ "" → c ∉ CATEGORIES →
      (checkFile filepath (Except.ok data)).filter
          (fun i => i.issue_code == "ARMORY-002") =
        [get_issue_struct "ARMORY-002" "Invalid category field"
          filepath 1 0]) ∧
    (∀ c, data.category = some c → c ∈ CATEGORIES →
      (checkFile filepath (Except.ok data)).filter
          (fun i => i.issue_code == "ARMORY-002") = []) := by
  have hsplit : checkFile filepath (Except.ok data) =
      titleIssues filepath data.title ++
        categoryIssues filepath data.category := by
    simp [checkFile, h]
  refine ⟨?_, ?_, ?_⟩
  · intro h1
    rw [hsplit, List.filter_append, titleIssues_filter_002]
    rcases h1 with h1 | h1 <;>
      simp [h1, categoryIssues, truthy, get_issue_struct]
  · intro c hc hcne hcmem
    rw [hsplit, List.filter_append, titleIssues_filter_002]
    have hne : c.data.isEmpty = false := by
      cases hceq : c.data.isEmpty
      · rfl
      · exfalso
        apply hcne
        apply String.ext
        simp at hceq
        rw [hceq]
    simp [hc, categoryIssues, truthy, hne, hcmem, get_issue_struct]
  · intro c hc hcmem
    have h1 : truthy (some c) = true := by
      have hmem2 := hcmem
      simp [CATEGORIES] at hmem2
      rcases hmem2 with rfl | rfl | rfl | rfl | rfl | rfl | rfl | rfl <;>
        decide
    rw [hsplit, List.filter_append, titleIssues_filter_002, hc,
      categoryIssues_valid filepath c h1 hcmem]
    simp

/-- Witness for the amended C4 at a concrete non-archived file with a
missing category. -/
theorem category_check_nonarchived_witness :
    (checkFile "issues/Y.toml"
        (Except.ok ⟨some "T", none, false⟩)).filter
        (fun i => i.issue_code == "ARMORY-002") =
      [get_issue_struct "ARMORY-002" "Missing category field."
        "issues/Y.toml" 1 0] :=
  (category_check_nonarchived "issues/Y.toml" ⟨some "T", none, false⟩
    rfl).1 (Or.inl rfl)

/-- Claim C10: a successfully parsed, non-archived file yields exactly the
title-check issues followed by the category-check issues (each check a
function of its own field only, so neither suppresses the other), with at
most one `ARMORY-001` issue, at most one `ARMORY-002` issue, and at most
two issues in total. -/
theorem nonarchived_at_most_two (filepath : String) (data : ParsedData)
    (h : data.archived = false) :
    checkFile filepath (Except.ok data) =
      titleIssues filepath data.title ++
        categoryIssues filepath data.category ∧
    (checkFile filepath (Except.ok data)).countP
        (fun i => i.issue_code == "ARMORY-001") ≤ 1 ∧
    (checkFile filepath (Except.ok data)).countP
        (fun i => i.issue_code == "ARMORY-002") ≤ 1 ∧
    (checkFile filepath (Except.ok data)).length ≤ 2 := by
  have hsplit : checkFile filepath (Except.ok data) =
      titleIssues filepath data.title ++
        categoryIssues filepath data.category := by
    simp [checkFile, h]
  refine ⟨hsplit, ?_, ?_, ?_⟩ <;>
    rw [hsplit] <;>
    rcases titleIssues_cases filepath data.title with ht | ht | ht <;>
    rcases categoryIssues_cases filepath data.category with hc | hc | hc <;>
    rw [ht, hc] <;>
    simp [get_issue_struct]

/-- Witness for C10 at a concrete non-archived file missing both fields. -/
theorem nonarchived_at_most_two_witness :
    checkFile "f" (Except.ok ⟨none, none, false⟩) =
      titleIssues "f" none ++ categoryIssues "f" none ∧
    (checkFile "f" (Except.ok ⟨none, none, false⟩)).countP
        (fun i => i.issue_code == "ARMORY-001") ≤ 1 ∧
    (checkFile "f" (Except.ok ⟨none, none, false⟩)).countP
        (fun i => i.issue_code == "ARMORY-002") ≤ 1 ∧
    (checkFile "f" (Except.ok ⟨none, none, false⟩)).length ≤ 2 :=
  nonarchived_at_most_two "f" ⟨none, none, false⟩ rfl

end Armory
